import Mathlib

/-
  Verification development for the aracsidev 3d-engine repository.

  The TypeScript sources (src/lib/modules/geometry.ts, src/lib/modules/types.ts,
  src/lib/modules/visuals.ts, src/lib/Engine.tsx) are shallowly embedded below.
  JavaScript numbers are modelled by an arbitrary linear ordered field; the
  computable instantiation uses the rationals.  The transcendental library
  functions (Math.cos, Math.sin, Math.tan, Math.sqrt, Math.PI) are passed in as
  an explicit record of numeric functions, instantiated with the exact real
  functions where trigonometric identities are needed and with arbitrary
  stand-ins where a claim does not depend on them.
-/

namespace Engine3D

/-- Model of the Vec3d class from geometry.ts: a mutable record with three
number fields, embedded as an immutable value that methods transform. -/
structure Vec3 (α : Type) where
  x : α
  y : α
  z : α
deriving DecidableEq

variable {α : Type} [LinearOrderedField α]

/-- Componentwise addition, used to model in-place `+=` updates on vectors. -/
def Vec3.add (a b : Vec3 α) : Vec3 α :=
  ⟨a.x + b.x, a.y + b.y, a.z + b.z⟩

/-- Componentwise subtraction, used to model in-place `-=` updates on vectors. -/
def Vec3.sub (a b : Vec3 α) : Vec3 α :=
  ⟨a.x - b.x, a.y - b.y, a.z - b.z⟩

/-- Model of Vec3d.dot (geometry.ts lines 134-136):
`(vector.x * this.x) + (vector.y * this.y) + (vector.z * this.z)`. -/
def Vec3.dot (v w : Vec3 α) : α :=
  w.x * v.x + w.y * v.y + w.z * v.z

/-- Squared Euclidean length of a vector; helper for stating unit-length facts
without a square root. -/
def Vec3.normSq (v : Vec3 α) : α :=
  v.x * v.x + v.y * v.y + v.z * v.z

/-- The numeric library functions used by the source (Math.cos, Math.sin,
Math.tan, Math.sqrt and Math.PI), abstracted so that the embedding stays
parametric in the field. -/
structure NumFns (α : Type) where
  cos : α → α
  sin : α → α
  tan : α → α
  sqrt : α → α
  pi : α

/-- The exact real interpretations of the numeric library functions. -/
noncomputable def realFns : NumFns ℝ :=
  ⟨Real.cos, Real.sin, Real.tan, Real.sqrt, Real.pi⟩

/-- Arbitrary computable stand-ins for the numeric library functions, used to
instantiate the parametric model on concrete rational examples whose claims do
not depend on the trigonometric values. -/
def mockFns : NumFns ℚ :=
  ⟨fun _ => 1, fun _ => 0, fun _ => 0, fun _ => 1, 0⟩

/-- Model of Vec3d.normalize (geometry.ts lines 144-149): divide every
component by the Euclidean length. -/
def Vec3.normalize (F : NumFns α) (v : Vec3 α) : Vec3 α :=
  let length := F.sqrt (v.x * v.x + v.y * v.y + v.z * v.z)
  ⟨v.x / length, v.y / length, v.z / length⟩

/-- First stage of Vec3d.rotate (geometry.ts lines 95-97): the rotation about
the x axis, with c and s the cosine and sine of the angle.  The source matrix
is [[c, -s], [s, c]] and the code reads entries [0][0], [1][0], [0][1], [1][1],
giving y1 = c*y + s*z and z1 = -s*y + c*z. -/
def rotAxisX (c s : α) (v : Vec3 α) : Vec3 α :=
  ⟨v.x, c * v.y + s * v.z, -s * v.y + c * v.z⟩

/-- Second stage of Vec3d.rotate (geometry.ts lines 99-101): rotation about
the y axis. -/
def rotAxisY (c s : α) (v : Vec3 α) : Vec3 α :=
  ⟨c * v.x + s * v.z, v.y, -s * v.x + c * v.z⟩

/-- Third stage of Vec3d.rotate (geometry.ts lines 103-105): rotation about
the z axis. -/
def rotAxisZ (c s : α) (v : Vec3 α) : Vec3 α :=
  ⟨c * v.x + s * v.y, -s * v.x + c * v.y, v.z⟩

/-- Model of Vec3d.rotate (geometry.ts lines 72-106): the three axis stages
applied in order x, y, z, each angle converted from degrees to radians before
the trigonometric functions are applied. -/
def Vec3.rotate (F : NumFns α) (r : Vec3 α) (v : Vec3 α) : Vec3 α :=
  rotAxisZ (F.cos (r.z * F.pi / 180)) (F.sin (r.z * F.pi / 180))
    (rotAxisY (F.cos (r.y * F.pi / 180)) (F.sin (r.y * F.pi / 180))
      (rotAxisX (F.cos (r.x * F.pi / 180)) (F.sin (r.x * F.pi / 180)) v))

/-- A 4x4 matrix of numbers, modelling the Matrix4x4 tuple type from
types.ts. -/
def Mat4 (α : Type) : Type :=
  Fin 4 → Fin 4 → α

/-- Model of Vec3d.multiplyByMatrix (geometry.ts lines 115-127).  The source
assigns this.x, this.y, this.z in sequence, so the expression for this.y reads
the ALREADY UPDATED this.x, the expression for this.z reads the updated this.x
and this.y, and w is computed from the three updated components; the embedding
reproduces that sequencing with let bindings.  When w is nonzero all three
components are divided by w, otherwise they are left as they are. -/
def Vec3.multiplyByMatrix (m : Mat4 α) (v : Vec3 α) : Vec3 α :=
  let x1 := v.x * m 0 0 + v.y * m 1 0 + v.z * m 2 0 + m 3 0
  let y1 := x1 * m 0 1 + v.y * m 1 1 + v.z * m 2 1 + m 3 1
  let z1 := x1 * m 0 2 + y1 * m 1 2 + v.z * m 2 2 + m 3 2
  let w := x1 * m 0 3 + y1 * m 1 3 + z1 * m 2 3 + m 3 3
  if w ≠ 0 then ⟨x1 / w, y1 / w, z1 / w⟩ else ⟨x1, y1, z1⟩

/-- Transcription of the SPEC reading of multiplyByMatrix, for comparison with
the source: every output component and w are computed from the pre-call
components of the vector, then x, y, z are divided by w when w is nonzero. -/
def multiplyByMatrixSpec (m : Mat4 α) (v : Vec3 α) : Vec3 α :=
  let x1 := v.x * m 0 0 + v.y * m 1 0 + v.z * m 2 0 + m 3 0
  let y1 := v.x * m 0 1 + v.y * m 1 1 + v.z * m 2 1 + m 3 1
  let z1 := v.x * m 0 2 + v.y * m 1 2 + v.z * m 2 2 + m 3 2
  let w := v.x * m 0 3 + v.y * m 1 3 + v.z * m 2 3 + m 3 3
  if w ≠ 0 then ⟨x1 / w, y1 / w, z1 / w⟩ else ⟨x1, y1, z1⟩

/-- The value assigned to this.x on geometry.ts line 116, from the pre-call
components. -/
def updX (m : Mat4 α) (v : Vec3 α) : α :=
  v.x * m 0 0 + v.y * m 1 0 + v.z * m 2 0 + m 3 0

/-- The value assigned to this.y on geometry.ts line 117: its first summand
reads this.x, which line 116 has already overwritten. -/
def updY (m : Mat4 α) (v : Vec3 α) : α :=
  updX m v * m 0 1 + v.y * m 1 1 + v.z * m 2 1 + m 3 1

/-- The value assigned to this.z on geometry.ts line 118, reading the already
updated x and y components. -/
def updZ (m : Mat4 α) (v : Vec3 α) : α :=
  updX m v * m 0 2 + updY m v * m 1 2 + v.z * m 2 2 + m 3 2

/-- The w computed on geometry.ts line 120, from the three already updated
components. -/
def updW (m : Mat4 α) (v : Vec3 α) : α :=
  updX m v * m 0 3 + updY m v * m 1 3 + updZ m v * m 2 3 + m 3 3

/-- Model of the Camera class state from visuals.ts: position, rotation, the
field of view already stored in radians, and the two clip planes. -/
structure Camera (α : Type) where
  position : Vec3 α
  rotation : Vec3 α
  fieldOfView : α
  nearPlane : α
  farPlane : α

/-- Model of Camera.getProjectionMatrix (visuals.ts lines 133-149), entry for
entry as the source writes it.  In particular entry [2][2] is transcribed
exactly as the source expression
`this.farPlane / this.farPlane - this.nearPlane`, which by operator precedence
is (farPlane / farPlane) - nearPlane. -/
def Camera.getProjectionMatrix (F : NumFns α) (c : Camera α) (aspectRatio : α) :
    Mat4 α :=
  let m11 := 1 / F.tan (c.fieldOfView / 2)
  fun i j =>
    if i = 1 ∧ j = 1 then m11
    else if i = 0 ∧ j = 0 then aspectRatio * m11
    else if i = 2 ∧ j = 2 then c.farPlane / c.farPlane - c.nearPlane
    else if i = 2 ∧ j = 3 then 1
    else if i = 3 ∧ j = 2 then (-c.farPlane * c.nearPlane) / (c.farPlane - c.nearPlane)
    else 0

/-- Model of the Renderer state from visuals.ts that Vec3d.project reads:
screen height and width, the camera, and the cached projection matrix. -/
structure RendererM (α : Type) where
  height : α
  width : α
  camera : Camera α
  projectionMatrix : Mat4 α

/-- Model of Vec3d.project (geometry.ts lines 162-179): subtract the camera
position, rotate by the camera rotation, multiply by the projection matrix,
then shift by one and scale to half the screen size on x and y. -/
def Vec3.project (F : NumFns α) (r : RendererM α) (v : Vec3 α) : Vec3 α :=
  let p := Vec3.sub v r.camera.position
  let q := Vec3.multiplyByMatrix r.projectionMatrix (Vec3.rotate F r.camera.rotation p)
  ⟨(q.x + 1) * (1 / 2 * r.width), (q.y + 1) * (1 / 2 * r.height), q.z⟩

/-- The un-normalized normal vector of a triangle with corners A, B, C, exactly
as Triangle.recalculateNormals (geometry.ts lines 229-239) computes it before
normalizing: the cross product of the edge vectors B - A and C - A. -/
def crossVec (A B C : Vec3 α) : Vec3 α :=
  ⟨(B.y - A.y) * (C.z - A.z) - (B.z - A.z) * (C.y - A.y),
   (B.z - A.z) * (C.x - A.x) - (B.x - A.x) * (C.z - A.z),
   (B.x - A.x) * (C.y - A.y) - (B.y - A.y) * (C.x - A.x)⟩

/-- The cross product of two vectors; crossVec A B C equals
cross (B - A) (C - A). -/
def cross (u v : Vec3 α) : Vec3 α :=
  ⟨u.y * v.z - u.z * v.y, u.z * v.x - u.x * v.z, u.x * v.y - u.y * v.x⟩

/-- The centroid of three corners, exactly as Triangle.recalculateCenter
(geometry.ts lines 247-254) computes it. -/
def centroid (A B C : Vec3 α) : Vec3 α :=
  ⟨(A.x + B.x + C.x) / 3, (A.y + B.y + C.y) / 3, (A.z + B.z + C.z) / 3⟩

/-- Model of the Triangle class from geometry.ts: three corners, the cached
normal and center, and the color field written by drawShaded.  In the source
the color field is undefined until drawShaded assigns it, modelled with an
Option that starts as none. -/
structure Triangle (α : Type) where
  A : Vec3 α
  B : Vec3 α
  C : Vec3 α
  normal : Vec3 α
  center : Vec3 α
  color : Option String
deriving DecidableEq

/-- Model of Triangle.recalculateNormals (geometry.ts lines 229-239): the
normalized cross product of the edges. -/
def Triangle.recalculateNormals (F : NumFns α) (t : Triangle α) : Triangle α :=
  { t with normal := Vec3.normalize F (crossVec t.A t.B t.C) }

/-- Model of Triangle.recalculateCenter (geometry.ts lines 247-254). -/
def Triangle.recalculateCenter (t : Triangle α) : Triangle α :=
  { t with center := centroid t.A t.B t.C }

/-- Model of the Triangle constructor (geometry.ts lines 213-221): store the
corners, then compute the normal and the center.  The color field starts
undefined. -/
def Triangle.make (F : NumFns α) (A B C : Vec3 α) : Triangle α :=
  Triangle.recalculateCenter (Triangle.recalculateNormals F ⟨A, B, C, ⟨0, 0, 0⟩, ⟨0, 0, 0⟩, none⟩)

/-- Model of Triangle.setLocation (geometry.ts lines 262-270): add the given
position vector to every corner, then recompute the center only.  The normal
field is not touched. -/
def Triangle.setLocation (p : Vec3 α) (t : Triangle α) : Triangle α :=
  Triangle.recalculateCenter
    { t with A := Vec3.add t.A p, B := Vec3.add t.B p, C := Vec3.add t.C p }

/-- Model of Triangle.rotate (geometry.ts lines 292-298): rotate every corner,
then recompute the normal and the center. -/
def Triangle.rotate (F : NumFns α) (r : Vec3 α) (t : Triangle α) : Triangle α :=
  Triangle.recalculateCenter (Triangle.recalculateNormals F
    { t with A := Vec3.rotate F r t.A, B := Vec3.rotate F r t.B, C := Vec3.rotate F r t.C })

/-- Model of Triangle.project (geometry.ts lines 279-283): project every
corner; the cached normal and center are not recomputed. -/
def Triangle.project (F : NumFns α) (r : RendererM α) (t : Triangle α) : Triangle α :=
  { t with A := Vec3.project F r t.A, B := Vec3.project F r t.B, C := Vec3.project F r t.C }

/-- The two mutating Triangle operations named by the spec, used to state
facts about arbitrary sequences of calls. -/
inductive TriOp (α : Type) where
  | rotateBy (r : Vec3 α)
  | moveBy (p : Vec3 α)

/-- Apply one Triangle operation. -/
def applyTriOp (F : NumFns α) (op : TriOp α) (t : Triangle α) : Triangle α :=
  match op with
  | TriOp.rotateBy r => Triangle.rotate F r t
  | TriOp.moveBy p => Triangle.setLocation p t

/-- Apply a sequence of Triangle operations from left to right. -/
def applyTriOps (F : NumFns α) (ops : List (TriOp α)) (t : Triangle α) : Triangle α :=
  ops.foldl (fun s op => applyTriOp F op s) t

/-- Model of Camera.getDifference (visuals.ts lines 115-126): the dot product
of the triangle normal with the vector from the camera to the triangle
center. -/
def Camera.getDifference (c : Camera α) (t : Triangle α) : α :=
  Vec3.dot t.normal (Vec3.sub t.center c.position)

/-- Model of the drawMethod enum from types.ts. -/
inductive DrawMethod where
  | VERTEX
  | CROSSES
  | WIRE
  | SHADED
deriving DecidableEq

/-- Model of the populated MeshConfig record from geometry.ts (lines
314-369). -/
structure MeshConfig where
  position : Vec3 ℚ
  initialRotation : Vec3 ℚ
  rotationEnabled : Bool
  culling : Bool
  color : String
  draw : DrawMethod
  rotationSpeed : ℚ
  rotationAxisList : List String
  lightSource : Vec3 ℚ
deriving DecidableEq

/-- The optional configuration object passed to the MeshConfig constructor.
none models an absent (undefined) property. -/
structure ConfigOpts where
  position : Option (Vec3 ℚ) := none
  initialRotation : Option (Vec3 ℚ) := none
  rotationEnabled : Option Bool := none
  culling : Option Bool := none
  color : Option String := none
  draw : Option DrawMethod := none
  rotationSpeed : Option ℚ := none
  rotationAxisList : Option (List String) := none
  lightSource : Option (Vec3 ℚ) := none

/-- Whether a character is one of 0-9, a-f, A-F. -/
def isHexDig (c : Char) : Bool :=
  (('0' ≤ c && c ≤ '9') || ('a' ≤ c && c ≤ 'f') || ('A' ≤ c && c ≤ 'F'))

/-- Model of the color validation regex from geometry.ts line 362,
`^#?([0-9A-Fa-f]\x7b6\x7d)$`: an optional leading hash followed by exactly six
hexadecimal digits. -/
def hexColorTest (s : String) : Bool :=
  match s.toList with
  | '#' :: rest => rest.length = 6 && rest.all isHexDig
  | l => l.length = 6 && l.all isHexDig

/-- Model of the MeshConfig constructor (geometry.ts lines 348-368).  Each
option is substituted by its default through the JavaScript truthiness test of
the ternary `config.f ? config.f : default`: object valued options (vectors,
the axis list) are truthy whenever present, a present number is falsy exactly
when it is zero, a present string is falsy exactly when it is empty, and a
present boolean is its own truth value (a present false selects the default
false, which is the same value).  After the defaults are filled in, the color
is checked against the hex pattern and replaced by white with a console
warning when it does not match, and the light source is normalized.  The
boolean result records whether the invalid-color warning was emitted. -/
def mkMeshConfig (F : NumFns ℚ) (o : ConfigOpts) : MeshConfig × Bool :=
  let position := o.position.getD ⟨0, 0, 0⟩
  let initialRotation := o.initialRotation.getD ⟨0, 0, 0⟩
  let culling := o.culling.getD false
  let color0 :=
    match o.color with
    | some c => if c ≠ "" then c else "#FFFFFF"
    | none => "#FFFFFF"
  let draw := o.draw.getD DrawMethod.WIRE
  let rotationEnabled := o.rotationEnabled.getD false
  let rotationSpeed :=
    match o.rotationSpeed with
    | some v => if v ≠ 0 then v else 1 / 2
    | none => 1 / 2
  let rotationAxisList := o.rotationAxisList.getD ["y"]
  let lightSource := o.lightSource.getD ⟨0, 0, -1⟩
  let warned := !hexColorTest color0
  let color := if hexColorTest color0 then color0 else "#FFFFFF"
  (⟨position, initialRotation, rotationEnabled, culling, color, draw,
    rotationSpeed, rotationAxisList, Vec3.normalize F lightSource⟩, warned)

/-- Numeric value of one hexadecimal digit (0 for a character that is not a
hexadecimal digit; the source only reads digits of a validated color). -/
def hexDigVal (c : Char) : ℕ :=
  if '0' ≤ c && c ≤ '9' then c.toNat - '0'.toNat
  else if 'a' ≤ c && c ≤ 'f' then c.toNat - 'a'.toNat + 10
  else if 'A' ≤ c && c ≤ 'F' then c.toNat - 'A'.toNat + 10
  else 0

/-- Model of `parseInt("0x" + color.slice(i, i+2))` for a validated hex color
string: the value of the two hexadecimal digits starting at character
position i. -/
def channelAt (s : String) (i : ℕ) : ℕ :=
  match s.toList.drop i with
  | c1 :: c2 :: _ => 16 * hexDigVal c1 + hexDigVal c2
  | _ => 0

/-- The lowercase hexadecimal digit for a value below sixteen, as produced by
the JavaScript Number.toString(16). -/
def hexDigChar (n : ℕ) : Char :=
  if n < 10 then Char.ofNat ('0'.toNat + n) else Char.ofNat ('a'.toNat + n - 10)

/-- Model of `R.toString(16)` for a channel value in the range 0-255: one
lowercase hexadecimal digit below sixteen, two digits otherwise. -/
def jsHexString (n : ℕ) : String :=
  if n < 16 then String.mk [hexDigChar n]
  else String.mk [hexDigChar (n / 16), hexDigChar (n % 16)]

/-- Model of the zero padding in drawShaded (geometry.ts lines 607-609): when
the hexadecimal string is shorter than two characters, prefix a zero. -/
def padHex (s : String) : String :=
  if s.length < 2 then "0" ++ s else s

/-- Model of the light intensity computed by drawShaded (geometry.ts line
599): `(lightSource.dot(normal) + 1) / 2`. -/
def lightIntensity (lightSource normal : Vec3 ℚ) : ℚ :=
  (Vec3.dot lightSource normal + 1) / 2

/-- Model of the color computation of Mesh.drawShaded (geometry.ts lines
592-611): read the three channels of the configured color, scale each by the
light intensity, floor to an integer, re-encode as zero-padded lowercase
hexadecimal and join with a leading hash.  Channel values are nonnegative for
a validated color and an intensity in [0, 1]; the integer floor is converted
through toNat, which is the identity on that range. -/
def shadedColor (color : String) (lightSource normal : Vec3 ℚ) : String :=
  let I := lightIntensity lightSource normal
  let R := (Int.floor ((channelAt color 1 : ℚ) * I)).toNat
  let G := (Int.floor ((channelAt color 3 : ℚ) * I)).toNat
  let B := (Int.floor ((channelAt color 5 : ℚ) * I)).toNat
  "#" ++ padHex (jsHexString R) ++ padHex (jsHexString G) ++ padHex (jsHexString B)

/-- The comparator passed to the sort in Mesh.project (geometry.ts line 435):
`(a, b) => a.center.z < b.center.z ? 1 : -1`.  It never returns zero. -/
def sortCompare (a b : Triangle ℚ) : ℤ :=
  if a.center.z < b.center.z then 1 else -1

/-- Insertion of a triangle into a list that is already in descending order of
center z.  Together with sortByDepth this is one concrete sort consistent with
the comparator sortCompare; the ECMAScript specification leaves the order of
equal keys implementation-defined for this comparator because it never returns
zero, and no claim proved below depends on the order chosen here. -/
def insertByZ (t : Triangle ℚ) : List (Triangle ℚ) → List (Triangle ℚ)
  | [] => [t]
  | h :: r => if h.center.z < t.center.z then t :: h :: r else h :: insertByZ t r

/-- A sort of the working triangles in descending order of center z, modelling
the `processedTriangles.sort(...)` call in Mesh.project. -/
def sortByDepth (l : List (Triangle ℚ)) : List (Triangle ℚ) :=
  l.foldr insertByZ []

/-- The MeshConfig fields other than initialRotation, as stored inside a
Mesh.  The initialRotation property is kept separately because the Mesh
constructor (geometry.ts line 408) makes this.currentRotation and
this.config.initialRotation two names for the SAME Vec3d object, which
Mesh.rotate then updates in place. -/
structure MeshFields where
  position : Vec3 ℚ
  rotationEnabled : Bool
  culling : Bool
  color : String
  draw : DrawMethod
  rotationSpeed : ℚ
  rotationAxisList : List String
  lightSource : Vec3 ℚ
deriving DecidableEq

/-- Model of the Mesh state (geometry.ts lines 380-424).  rotState is the one
Vec3d object that both this.currentRotation and this.config.initialRotation
reference after construction; initial models the readonly initialTriangles
array and processed the processedTriangles array. -/
structure MeshModel where
  cfg : MeshFields
  rotState : Vec3 ℚ
  initial : List (Triangle ℚ)
  processed : List (Triangle ℚ)

/-- The value of this.currentRotation of a mesh. -/
def MeshModel.currentRotation (m : MeshModel) : Vec3 ℚ :=
  m.rotState

/-- The value of this.config.initialRotation of a mesh.  Because of the
aliasing created on geometry.ts line 408 this reads the same object as
currentRotation. -/
def MeshModel.configInitialRotation (m : MeshModel) : Vec3 ℚ :=
  m.rotState

/-- Model of the Mesh constructor (geometry.ts lines 399-424): keep the given
triangle list as initialTriangles, let currentRotation reference the
initialRotation object of the config, and populate processedTriangles with
fresh Triangle objects built from the corner coordinates of the initial
ones. -/
def MeshModel.make (F : NumFns ℚ) (config : MeshConfig) (triangles : List (Triangle ℚ)) :
    MeshModel :=
  { cfg := ⟨config.position, config.rotationEnabled, config.culling, config.color,
      config.draw, config.rotationSpeed, config.rotationAxisList, config.lightSource⟩,
    rotState := config.initialRotation,
    initial := triangles,
    processed := triangles.map (fun t => Triangle.make F t.A t.B t.C) }

/-- One step of the axis loop of Mesh.rotate (geometry.ts lines 476-488): a
plain axis letter adds rotationSpeed to the matching component and resets it
to zero when the sum reaches at least 360; a minus-prefixed axis subtracts and
resets to zero when the difference reaches at most -360; any other string
matches no entry of the possibles list and changes nothing. -/
def applyAxis (speed : ℚ) (r : Vec3 ℚ) (axis : String) : Vec3 ℚ :=
  if axis = "x" then
    let v := r.x + speed
    { r with x := if 360 ≤ v then 0 else v }
  else if axis = "y" then
    let v := r.y + speed
    { r with y := if 360 ≤ v then 0 else v }
  else if axis = "z" then
    let v := r.z + speed
    { r with z := if 360 ≤ v then 0 else v }
  else if axis = "-x" then
    let v := r.x - speed
    { r with x := if v ≤ -360 then 0 else v }
  else if axis = "-y" then
    let v := r.y - speed
    { r with y := if v ≤ -360 then 0 else v }
  else if axis = "-z" then
    let v := r.z - speed
    { r with z := if v ≤ -360 then 0 else v }
  else r

/-- Transcription of the SPEC description of one axis update, for comparison
with applyAxis: increment (plain letter) or decrement (minus-prefixed) the
matching component by the rotation speed, and reset it to exactly zero once
the forward value reaches at least 360 or the negative value reaches at most
-360. -/
def axisStepSpec (speed : ℚ) (r : Vec3 ℚ) (axis : String) : Vec3 ℚ :=
  if axis = "x" then { r with x := if 360 ≤ r.x + speed then 0 else r.x + speed }
  else if axis = "y" then { r with y := if 360 ≤ r.y + speed then 0 else r.y + speed }
  else if axis = "z" then { r with z := if 360 ≤ r.z + speed then 0 else r.z + speed }
  else if axis = "-x" then { r with x := if r.x - speed ≤ -360 then 0 else r.x - speed }
  else if axis = "-y" then { r with y := if r.y - speed ≤ -360 then 0 else r.y - speed }
  else if axis = "-z" then { r with z := if r.z - speed ≤ -360 then 0 else r.z - speed }
  else r

/-- The four per-frame Mesh operations, in the order Renderer.render calls
them on every frame (visuals.ts lines 212-217). -/
inductive MOp where
  | rotateOp
  | projectOp (r : RendererM ℚ)
  | drawOp

/-- Model of Mesh.rotate (geometry.ts lines 473-498): when rotation is
enabled, fold the axis update over the configured axis list; then rotate every
working triangle by the updated current rotation and translate it by the
configured position. -/
def meshRotate (F : NumFns ℚ) (m : MeshModel) : MeshModel :=
  let newRot :=
    if m.cfg.rotationEnabled then
      m.cfg.rotationAxisList.foldl (applyAxis m.cfg.rotationSpeed) m.rotState
    else m.rotState
  { m with
    rotState := newRot,
    processed := m.processed.map (fun t =>
      Triangle.setLocation m.cfg.position (Triangle.rotate F newRot t)) }

/-- Model of Mesh.project (geometry.ts lines 432-448): sort the working
triangles by descending center z, then project each one unless culling is
enabled and the triangle faces away from the camera; a culled triangle stays
in the list unprojected. -/
def meshProject (F : NumFns ℚ) (r : RendererM ℚ) (m : MeshModel) : MeshModel :=
  { m with
    processed := (sortByDepth m.processed).map (fun t =>
      if m.cfg.culling && !(decide (Camera.getDifference r.camera t < 0)) then t
      else Triangle.project F r t) }

/-- Model of Mesh.draw (geometry.ts lines 506-528) restricted to its effect on
the mesh state: only the SHADED branch mutates anything reachable from the
mesh, writing the shaded color into each working triangle (geometry.ts line
611); the canvas itself is outside the model. -/
def meshDraw (m : MeshModel) : MeshModel :=
  if m.cfg.draw = DrawMethod.SHADED then
    { m with
      processed := m.processed.map (fun t =>
        { t with color := some (shadedColor m.cfg.color m.cfg.lightSource t.normal) }) }
  else m

/-- Model of Mesh.reset (geometry.ts lines 456-465): rebuild the working
triangles as fresh Triangle objects from the corner coordinates of the initial
triangles.  Nothing else is touched. -/
def meshReset (F : NumFns ℚ) (m : MeshModel) : MeshModel :=
  { m with processed := m.initial.map (fun t => Triangle.make F t.A t.B t.C) }

/-- Apply one per-frame Mesh operation. -/
def applyMOp (F : NumFns ℚ) (op : MOp) (m : MeshModel) : MeshModel :=
  match op with
  | MOp.rotateOp => meshRotate F m
  | MOp.projectOp r => meshProject F r m
  | MOp.drawOp => meshDraw m

/-- A per-frame operation on a mesh: one of the three mutating calls, or a
reset. -/
inductive FrameOp where
  | step (op : MOp)
  | resetOp

/-- Apply one frame operation (a mutating call or a reset). -/
def applyFrameOp (F : NumFns ℚ) (op : FrameOp) (m : MeshModel) : MeshModel :=
  match op with
  | FrameOp.step op => applyMOp F op m
  | FrameOp.resetOp => meshReset F m

/-- Apply a sequence of frame operations from left to right. -/
def applyFrameOps (F : NumFns ℚ) (ops : List FrameOp) (m : MeshModel) : MeshModel :=
  ops.foldl (fun s op => applyFrameOp F op s) m

/-- Split a character list at every occurrence of a separator character,
keeping empty pieces, like the line and token splitting the parser in
Engine.tsx performs through the multiline regex flag and String.split. -/
def splitOnChar (sep : Char) (l : List Char) : List (List Char) :=
  l.foldr
    (fun c acc =>
      if c = sep then [] :: acc
      else
        match acc with
        | h :: t => (c :: h) :: t
        | [] => [[c]])
    [[]]

/-- Consume one token of the shape `-?[digits](.[digits])?`, the number group
of the vertex and face regexes in Engine.tsx lines 126-127, returning the rest
of the characters, or none when the characters do not start with such a
token followed by a non-digit. -/
def numTok (l : List Char) : Option (List Char) :=
  let l1 := match l with
    | '-' :: r => r
    | _ => l
  let ds := l1.takeWhile Char.isDigit
  let r1 := l1.dropWhile Char.isDigit
  if ds = [] then none
  else
    match r1 with
    | '.' :: r2 =>
      let ds2 := r2.takeWhile Char.isDigit
      let r3 := r2.dropWhile Char.isDigit
      if ds2 = [] then none else some r3
    | _ => some r1

/-- Whether the characters are exactly n repetitions of a space followed by a
number token, with nothing after them: the `( -?[digits](.[digits])?)\x7bn\x7d$`
part of the line regexes. -/
def nToks : ℕ → List Char → Bool
  | 0, l => l = []
  | n + 1, ' ' :: r =>
    match numTok r with
    | some r2 => nToks n r2
    | none => false
  | _ + 1, _ => false

/-- Whether one line matches the vertex or face regex of Engine.tsx lines
126-127: the given lead character followed by exactly three space separated
number tokens. -/
def matchLine (lead : Char) (l : List Char) : Bool :=
  match l with
  | c :: rest => c = lead && nToks 3 rest
  | [] => false

/-- The natural number denoted by a list of decimal digit characters. -/
def digitsToNat (l : List Char) : ℕ :=
  l.foldl (fun n c => 10 * n + (c.toNat - '0'.toNat)) 0

/-- The rational number denoted by one matched number token, modelling the
JavaScript Number conversion on the strings the regexes accept: an optional
minus sign, an integer part and an optional fractional part. -/
def parseNum (l : List Char) : ℚ :=
  let signed := match l with
    | '-' :: _ => true
    | _ => false
  let l1 := match l with
    | '-' :: r => r
    | _ => l
  let ds := l1.takeWhile Char.isDigit
  let r1 := l1.dropWhile Char.isDigit
  let frac : ℚ := match r1 with
    | '.' :: r2 =>
      let ds2 := r2.takeWhile Char.isDigit
      (digitsToNat ds2 : ℚ) / ((10 : ℚ) ^ ds2.length)
    | _ => 0
  let mag : ℚ := (digitsToNat ds : ℚ) + frac
  if signed then -mag else mag

/-- The k-th space separated token of a matched line, modelling
`line.split(" ")[k]`. -/
def tokenAt (l : List Char) (k : ℕ) : List Char :=
  (splitOnChar ' ' l).getD k []

/-- The vertex denoted by a matched vertex line: the three numbers after the
lead character, in order. -/
def parseVertexLine (l : List Char) : Vec3 ℚ :=
  ⟨parseNum (tokenAt l 1), parseNum (tokenAt l 2), parseNum (tokenAt l 3)⟩

/-- A face as the parser groups it (Engine.tsx lines 147-153): the three
numbers of a matched face line.  JavaScript stores them as numbers, so they
are kept as rationals here. -/
structure Face where
  A : ℚ
  B : ℚ
  C : ℚ
deriving DecidableEq

/-- The face denoted by a matched face line. -/
def parseFaceLine (l : List Char) : Face :=
  ⟨parseNum (tokenAt l 1), parseNum (tokenAt l 2), parseNum (tokenAt l 3)⟩

/-- Model of the JavaScript array read `vertices[q]` for a number index q:
the element when q is a nonnegative integer below the length, undefined
(none) otherwise. -/
def jsIndexGet (vs : List (Vec3 ℚ)) (q : ℚ) : Option (Vec3 ℚ) :=
  if q.den = 1 ∧ 0 ≤ q.num then vs.get? q.num.toNat else none

/-- The failures the parsing path of useFile can raise, plus the IndexError
the specification names.  noFaces and noVertices model the two explicit
`throw new Error(...)` calls of Engine.tsx lines 129-135; undefinedAccess
models the TypeError raised inside the Triangle constructor when it reads a
property of an undefined vertex; indexError is never produced by the code and
exists only so that statements can speak about the error the specification
claims. -/
inductive ObjError where
  | noFaces
  | noVertices
  | undefinedAccess
  | indexError
deriving DecidableEq

/-- Decidable equality for results of fallible computations, used to evaluate
the parser on concrete inputs. -/
instance {ε σ : Type} [DecidableEq ε] [DecidableEq σ] : DecidableEq (Except ε σ) :=
  fun x y =>
    match x, y with
    | Except.ok a, Except.ok b =>
      decidable_of_iff (a = b) ⟨fun h => by rw [h], fun h => by injection h⟩
    | Except.ok _, Except.error _ => isFalse (fun h => by injection h)
    | Except.error _, Except.ok _ => isFalse (fun h => by injection h)
    | Except.error e, Except.error e2 =>
      decidable_of_iff (e = e2) ⟨fun h => by rw [h], fun h => by injection h⟩

/-- Build the output triangles from the grouped faces (Engine.tsx lines
156-162): each face index is decremented by one and used to index the vertex
list; when any of the three reads yields undefined, the Triangle constructor
raises a TypeError on the first property access, which aborts the whole
parse. -/
def buildTris (F : NumFns ℚ) (vs : List (Vec3 ℚ)) :
    List Face → Except ObjError (List (Triangle ℚ))
  | [] => Except.ok []
  | f :: rest =>
    match jsIndexGet vs (f.A - 1), jsIndexGet vs (f.B - 1), jsIndexGet vs (f.C - 1) with
    | some a, some b, some c =>
      match buildTris F vs rest with
      | Except.ok ts => Except.ok (Triangle.make F a b c :: ts)
      | Except.error e => Except.error e
    | _, _, _ => Except.error ObjError.undefinedAccess

/-- The lines of a file text matching the vertex regex, modelling
`file.match(vertex regex with the g and m flags)`. -/
def vertexLinesOf (file : String) : List (List Char) :=
  (splitOnChar '\n' file.toList).filter (matchLine 'v')

/-- The lines of a file text matching the face regex. -/
def faceLinesOf (file : String) : List (List Char) :=
  (splitOnChar '\n' file.toList).filter (matchLine 'f')

/-- The vertex list the parser accumulates (Engine.tsx lines 138-144). -/
def verticesOf (file : String) : List (Vec3 ℚ) :=
  (vertexLinesOf file).map parseVertexLine

/-- The face list the parser accumulates (Engine.tsx lines 147-153). -/
def facesOf (file : String) : List Face :=
  (faceLinesOf file).map parseFaceLine

/-- Model of the parsing branch of useFile (Engine.tsx lines 109-165) on a
fetched file text: collect the lines matching the vertex and face regexes,
fail when there are no face lines, then when there are no vertex lines, parse
the matched lines and build the triangles. -/
def parseObj (F : NumFns ℚ) (file : String) : Except ObjError (List (Triangle ℚ)) :=
  if faceLinesOf file = [] then Except.error ObjError.noFaces
  else if vertexLinesOf file = [] then Except.error ObjError.noVertices
  else buildTris F (verticesOf file) (facesOf file)

/-- A concrete matrix on which the sequential component updates of
multiplyByMatrix are observable: entry [0][1] feeds the x component into the
y component, entry [3][3] makes w equal to one. -/
def matSeq : Mat4 ℚ :=
  fun i j =>
    if i = 0 ∧ j = 1 then 1
    else if i = 3 ∧ j = 3 then 1
    else 0

/-- A concrete mesh configuration with rotation enabled on the y axis at one
half degree per tick and every other option at its default value. -/
def cfgSpinY : MeshConfig :=
  ⟨⟨0, 0, 0⟩, ⟨0, 0, 0⟩, true, false, "#FFFFFF", DrawMethod.WIRE, 1 / 2, ["y"],
    ⟨0, 0, -1⟩⟩

/-- The same configuration with rotation speed 370, past the wrap
boundary in a single tick. -/
def cfgSpin370 : MeshConfig :=
  ⟨⟨0, 0, 0⟩, ⟨0, 0, 0⟩, true, false, "#FFFFFF", DrawMethod.WIRE, 370, ["y"],
    ⟨0, 0, -1⟩⟩

/-- A concrete non-degenerate triangle for the examples. -/
def triUnit : Triangle ℚ :=
  Triangle.make mockFns ⟨0, 0, 0⟩ ⟨1, 0, 0⟩ ⟨0, 1, 0⟩

/-- A mesh built from the spinning configuration and one triangle. -/
def meshSpinY : MeshModel :=
  MeshModel.make mockFns cfgSpinY [triUnit]

/-- A mesh built from the fast spinning configuration and one triangle. -/
def meshSpin370 : MeshModel :=
  MeshModel.make mockFns cfgSpin370 [triUnit]

/-- A mesh text with three vertices and one face whose third index, 99, is
outside the vertex range. -/
def objTextBadIndex : String :=
  "v 0 0 0\nv 1 0 0\nv 0 1 0\nf 1 2 99"

/-- A well-formed mesh text with three vertices and one face. -/
def objTextGood : String :=
  "v 0 0 0\nv 1 0 0\nv 0 1 0\nf 1 2 3"

/-- A camera with the default clip planes of the source (near 0.1, far 1000)
and a field of view of half pi radians. -/
noncomputable def camDefault : Camera ℝ :=
  ⟨⟨0, 0, 0⟩, ⟨0, 0, 0⟩, Real.pi / 2, 1 / 10, 1000⟩

/-- Claim C1, amended: multiplyByMatrix applies the homogeneous transform with
sequential in-place component updates, so the y expression reads the already
updated x and the z and w expressions read all earlier updates; when the
resulting w is nonzero the three components are divided by it, and when w is
zero the un-normalized values are kept and no error is raised. -/
theorem C1_sequential_homogeneous_transform (m : Mat4 ℚ) (v : Vec3 ℚ) :
    Vec3.multiplyByMatrix m v =
      if updW m v = 0 then ⟨updX m v, updY m v, updZ m v⟩
      else ⟨updX m v / updW m v, updY m v / updW m v, updZ m v / updW m v⟩ := by
  by_cases h : updW m v = 0 <;>
    simp [Vec3.multiplyByMatrix, updX, updY, updZ, updW, h]

/-- Claim C1, counterexample to the original statement: on the matrix whose
only nonzero entries are [0][1] = 1 and [3][3] = 1 and the vector (1, 0, 0),
the source method returns y = 0 because the x component has already been
overwritten with 0, while the transform computed from the pre-call components
would return y = 1. -/
theorem C1_pre_call_counterexample :
    Vec3.multiplyByMatrix matSeq ⟨1, 0, 0⟩ ≠ multiplyByMatrixSpec matSeq ⟨1, 0, 0⟩ ∧
    (Vec3.multiplyByMatrix matSeq ⟨1, 0, 0⟩).y = 0 ∧
    (multiplyByMatrixSpec matSeq ⟨1, 0, 0⟩).y = 1 := by
  with_unfolding_all decide

/-- Claim C2: of the five entries the claim lists for the projection matrix,
four match the source; entry [2][2] does not, because the source expression
`farPlane / farPlane - nearPlane` associates as (farPlane / farPlane) -
nearPlane.  At the default clip planes (near 0.1, far 1000) the source entry
equals 0.9, which differs from the claimed far / (far - near). -/
theorem C2_projection_matrix_m22 :
    (∀ (c : Camera ℝ) (a : ℝ),
      Camera.getProjectionMatrix realFns c a 1 1 = 1 / Real.tan (c.fieldOfView / 2) ∧
      Camera.getProjectionMatrix realFns c a 0 0 =
        a * (1 / Real.tan (c.fieldOfView / 2)) ∧
      Camera.getProjectionMatrix realFns c a 2 3 = 1 ∧
      Camera.getProjectionMatrix realFns c a 3 2 =
        (-c.farPlane * c.nearPlane) / (c.farPlane - c.nearPlane) ∧
      Camera.getProjectionMatrix realFns c a 2 2 =
        c.farPlane / c.farPlane - c.nearPlane) ∧
    Camera.getProjectionMatrix realFns camDefault 1 2 2 = 9 / 10 ∧
    (9 : ℝ) / 10 ≠ 1000 / (1000 - 1 / 10) := by
  refine ⟨fun c a => ⟨?_, ?_, ?_, ?_, ?_⟩, ?_, ?_⟩
  · simp [Camera.getProjectionMatrix, realFns]
  · simp [Camera.getProjectionMatrix, realFns]
  · simp [Camera.getProjectionMatrix]
  · simp [Camera.getProjectionMatrix]
  · simp [Camera.getProjectionMatrix]
  · simp [Camera.getProjectionMatrix, camDefault]
    norm_num
  · norm_num

/-- The source axis update and the update the spec describes are the same
function. -/
theorem applyAxis_eq_axisStepSpec :
    @applyAxis = @axisStepSpec :=
  rfl

/-- A Triangle built by the constructor keeps the given corners. -/
theorem triangleMake_corners (F : NumFns ℚ) (A B C : Vec3 ℚ) :
    (Triangle.make F A B C).A = A ∧ (Triangle.make F A B C).B = B ∧
      (Triangle.make F A B C).C = C :=
  ⟨rfl, rfl, rfl⟩

/-- No per-frame operation changes the non-aliased config fields. -/
theorem applyFrameOp_cfg (F : NumFns ℚ) (op : FrameOp) (m : MeshModel) :
    (applyFrameOp F op m).cfg = m.cfg := by
  rcases op with op | _
  · rcases op with _ | r | _
    · rfl
    · rfl
    · simp only [applyFrameOp, applyMOp, meshDraw]
      split <;> rfl
  · rfl

/-- No per-frame operation changes the readonly initialTriangles array. -/
theorem applyFrameOp_initial (F : NumFns ℚ) (op : FrameOp) (m : MeshModel) :
    (applyFrameOp F op m).initial = m.initial := by
  rcases op with op | _
  · rcases op with _ | r | _
    · rfl
    · rfl
    · simp only [applyFrameOp, applyMOp, meshDraw]
      split <;> rfl
  · rfl

/-- No sequence of per-frame operations changes the readonly initialTriangles
array. -/
theorem applyFrameOps_initial (F : NumFns ℚ) (ops : List FrameOp) (m : MeshModel) :
    (applyFrameOps F ops m).initial = m.initial := by
  induction ops generalizing m with
  | nil => rfl
  | cons op rest ih =>
    simp only [applyFrameOps, List.foldl_cons]
    rw [show ∀ s, List.foldl (fun s op => applyFrameOp F op s) s rest =
      applyFrameOps F rest s from fun s => rfl]
    rw [ih, applyFrameOp_initial]

/-- Claim C10: the MeshConfig constructor replaces every falsy option value by
its default, so a configured rotation speed of zero is silently replaced by
one half (no configuration can produce speed exactly zero), and an empty
color string is replaced by white without triggering the invalid-color
warning. -/
theorem C10_falsy_options_defaulted :
    (∀ (F : NumFns ℚ) (o : ConfigOpts), (mkMeshConfig F o).1.rotationSpeed ≠ 0) ∧
    (∀ (F : NumFns ℚ) (o : ConfigOpts),
      (mkMeshConfig F { o with rotationSpeed := some 0 }).1.rotationSpeed = 1 / 2) ∧
    (∀ (F : NumFns ℚ) (o : ConfigOpts),
      (mkMeshConfig F { o with color := some "" }).1.color = "#FFFFFF" ∧
      (mkMeshConfig F { o with color := some "" }).2 = false) := by
  refine ⟨fun F o => ?_, fun F o => ?_, fun F o => ?_⟩
  · cases h : o.rotationSpeed with
    | none => simp [mkMeshConfig, h]
    | some v =>
      by_cases hv : v = 0 <;> simp [mkMeshConfig, h, hv]
  · simp [mkMeshConfig]
  · constructor
    · simp only [mkMeshConfig]
      with_unfolding_all decide
    · simp only [mkMeshConfig]
      with_unfolding_all decide

/-- Claim C6: on a mesh with rotation enabled, one rotate call updates the
current rotation by folding, over the configured axis list, exactly the
update the spec describes: add (plain letter) or subtract (minus-prefixed)
the rotation speed on the matching component, resetting it to exactly zero
once the forward value reaches at least 360 or the negative value reaches at
most -360. -/
theorem C6_rotate_updates_axes (F : NumFns ℚ) (m : MeshModel)
    (h : m.cfg.rotationEnabled = true) :
    (meshRotate F m).currentRotation =
      m.cfg.rotationAxisList.foldl (axisStepSpec m.cfg.rotationSpeed)
        m.currentRotation := by
  simp [meshRotate, MeshModel.currentRotation, h, applyAxis_eq_axisStepSpec]

/-- Witness for claim C6 at the boundary case the spec gives: rotation speed
370 on axis y wraps to exactly zero after a single tick. -/
theorem C6_rotate_updates_axes_witness :
    meshSpin370.cfg.rotationEnabled = true ∧
    (meshRotate mockFns meshSpin370).currentRotation.y = 0 := by
  refine ⟨rfl, ?_⟩
  rw [C6_rotate_updates_axes mockFns meshSpin370 rfl]
  with_unfolding_all decide

/-- Claim C4, counterexample to the original statement: after one rotate call
on a mesh with rotation enabled, the initialRotation property of its config
object no longer holds the value it was constructed with, because
currentRotation and config.initialRotation are the same mutated object. -/
theorem C4_initialRotation_mutated :
    MeshModel.configInitialRotation
        (applyFrameOp mockFns (FrameOp.step MOp.rotateOp)
          (MeshModel.make mockFns cfgSpinY [triUnit])) ≠
      cfgSpinY.initialRotation ∧
    MeshModel.configInitialRotation
        (applyFrameOp mockFns (FrameOp.step MOp.rotateOp)
          (MeshModel.make mockFns cfgSpinY [triUnit])) =
      ⟨0, 1 / 2, 0⟩ := by
  with_unfolding_all decide

/-- Claim C4, amended: rotate, project, draw and reset leave every MeshConfig
field other than initialRotation unchanged, and only the working triangles
and the shared rotation object are mutated; but initialRotation is that same
shared object, so it changes together with currentRotation whenever rotate
updates it. -/
theorem C4_config_fields_preserved (F : NumFns ℚ) (op : FrameOp) (m : MeshModel) :
    (applyFrameOp F op m).cfg = m.cfg ∧
    (applyFrameOp F op m).configInitialRotation =
      (applyFrameOp F op m).currentRotation :=
  ⟨applyFrameOp_cfg F op m, rfl⟩

/-- Claim C8: after any prior sequence of per-frame operations, reset rebuilds
the working triangles as fresh copies of the source triangles, corner for
corner identical to them, and leaves the current rotation untouched. -/
theorem C8_reset_restores_source_triangles (F : NumFns ℚ) (config : MeshConfig)
    (tris : List (Triangle ℚ)) (ops : List FrameOp) :
    (meshReset F (applyFrameOps F ops (MeshModel.make F config tris))).processed =
        tris.map (fun t => Triangle.make F t.A t.B t.C) ∧
    (meshReset F (applyFrameOps F ops (MeshModel.make F config tris))).processed.map
        (fun t => (t.A, t.B, t.C)) =
      tris.map (fun t => (t.A, t.B, t.C)) ∧
    (meshReset F (applyFrameOps F ops (MeshModel.make F config tris))).currentRotation =
      (applyFrameOps F ops (MeshModel.make F config tris)).currentRotation := by
  have hinit : (applyFrameOps F ops (MeshModel.make F config tris)).initial = tris :=
    applyFrameOps_initial F ops (MeshModel.make F config tris)
  refine ⟨?_, ?_, rfl⟩
  · simp [meshReset, hinit]
  · simp [meshReset, hinit, List.map_map, Function.comp, Triangle.make,
      Triangle.recalculateCenter, Triangle.recalculateNormals]

/-- When buildTris succeeds, every output triangle was built from the three
vertices selected by the face indices decremented by one. -/
theorem buildTris_ok (F : NumFns ℚ) (vs : List (Vec3 ℚ)) (fs : List Face)
    (ts : List (Triangle ℚ)) (h : buildTris F vs fs = Except.ok ts) :
    List.Forall₂
      (fun (f : Face) (t : Triangle ℚ) => ∃ a b c,
        jsIndexGet vs (f.A - 1) = some a ∧
        jsIndexGet vs (f.B - 1) = some b ∧
        jsIndexGet vs (f.C - 1) = some c ∧
        t = Triangle.make F a b c)
      fs ts := by
  induction fs generalizing ts with
  | nil =>
    simp only [buildTris] at h
    injection h with h
    subst h
    exact List.Forall₂.nil
  | cons f rest ih =>
    simp only [buildTris] at h
    rcases ha : jsIndexGet vs (f.A - 1) with _ | a <;> rw [ha] at h
    · exact absurd h (by simp)
    rcases hb : jsIndexGet vs (f.B - 1) with _ | b <;> rw [hb] at h
    · exact absurd h (by simp)
    rcases hc : jsIndexGet vs (f.C - 1) with _ | c <;> rw [hc] at h
    · exact absurd h (by simp)
    simp only at h
    rcases hr : buildTris F vs rest with e | ts2 <;> rw [hr] at h
    · exact absurd h (by simp)
    injection h with h
    subst h
    exact List.Forall₂.cons ⟨a, b, c, ha, hb, hc, rfl⟩ (ih ts2 hr)

/-- Claim C5, amended: each face index is decremented by one before indexing
the vertex list, and a successful parse pairs every face with a triangle
built from the vertices those decremented indices select; an index outside
the vertex range yields undefined from the array read, and parsing then fails
with the TypeError the Triangle constructor raises on the undefined vertex
rather than returning corrupt geometry. -/
theorem C5_one_based_conversion (F : NumFns ℚ) (file : String)
    (tris : List (Triangle ℚ)) (h : parseObj F file = Except.ok tris) :
    List.Forall₂
      (fun (f : Face) (t : Triangle ℚ) => ∃ a b c,
        jsIndexGet (verticesOf file) (f.A - 1) = some a ∧
        jsIndexGet (verticesOf file) (f.B - 1) = some b ∧
        jsIndexGet (verticesOf file) (f.C - 1) = some c ∧
        t = Triangle.make F a b c)
      (facesOf file) tris := by
  simp only [parseObj] at h
  split at h
  · exact absurd h (by simp)
  split at h
  · exact absurd h (by simp)
  exact buildTris_ok F (verticesOf file) (facesOf file) tris h

/-- Witness for claim C5 on a well-formed text with three vertices and one
face: parsing succeeds and the face is paired with the vertices its
decremented indices select. -/
theorem C5_one_based_conversion_witness :
    parseObj mockFns objTextGood =
        Except.ok [Triangle.make mockFns ⟨0, 0, 0⟩ ⟨1, 0, 0⟩ ⟨0, 1, 0⟩] ∧
    List.Forall₂
      (fun (f : Face) (t : Triangle ℚ) => ∃ a b c,
        jsIndexGet (verticesOf objTextGood) (f.A - 1) = some a ∧
        jsIndexGet (verticesOf objTextGood) (f.B - 1) = some b ∧
        jsIndexGet (verticesOf objTextGood) (f.C - 1) = some c ∧
        t = Triangle.make mockFns a b c)
      (facesOf objTextGood)
      [Triangle.make mockFns ⟨0, 0, 0⟩ ⟨1, 0, 0⟩ ⟨0, 1, 0⟩] :=
  ⟨by with_unfolding_all decide,
   C5_one_based_conversion mockFns objTextGood _ (by with_unfolding_all decide)⟩

/-- Claim C5, counterexample to the original statement: on the text with
three vertices and a face referencing index 99, parsing fails with the
TypeError of the undefined property access, not with an IndexError; no
explicit index check exists in the code. -/
theorem C5_no_index_error_counterexample :
    parseObj mockFns objTextBadIndex = Except.error ObjError.undefinedAccess ∧
    parseObj mockFns objTextBadIndex ≠ Except.error ObjError.indexError := by
  with_unfolding_all decide

/-- Claim C7: when the light source and the triangle normal are unit vectors
the shading intensity (dot + 1) / 2 lies in [0, 1], each scaled and floored
channel value never exceeds the configured channel value, and on the color
FF0000 a dot product of one yields the lowercase output ff0000 while a dot
product of minus one yields 000000. -/
theorem C7_shaded_intensity_in_unit_range (light normal : Vec3 ℚ)
    (hl : Vec3.normSq light = 1) (hn : Vec3.normSq normal = 1) :
    (0 ≤ lightIntensity light normal ∧ lightIntensity light normal ≤ 1) ∧
    (∀ (color : String) (i : ℕ),
      (Int.floor ((channelAt color i : ℚ) * lightIntensity light normal)).toNat ≤
        channelAt color i) ∧
    shadedColor "#FF0000" ⟨0, 0, -1⟩ ⟨0, 0, -1⟩ = "#ff0000" ∧
    shadedColor "#FF0000" ⟨0, 0, -1⟩ ⟨0, 0, 1⟩ = "#000000" := by
  simp only [Vec3.normSq] at hl hn
  have hdotle : Vec3.dot light normal ≤ 1 := by
    simp only [Vec3.dot]
    nlinarith [sq_nonneg (light.x - normal.x), sq_nonneg (light.y - normal.y),
      sq_nonneg (light.z - normal.z)]
  have hdotge : -1 ≤ Vec3.dot light normal := by
    simp only [Vec3.dot]
    nlinarith [sq_nonneg (light.x + normal.x), sq_nonneg (light.y + normal.y),
      sq_nonneg (light.z + normal.z)]
  have hI0 : 0 ≤ lightIntensity light normal := by
    simp only [lightIntensity]
    linarith
  have hI1 : lightIntensity light normal ≤ 1 := by
    simp only [lightIntensity]
    linarith
  refine ⟨⟨hI0, hI1⟩, fun color i => ?_, ?_, ?_⟩
  · have hmul : (channelAt color i : ℚ) * lightIntensity light normal ≤
        (channelAt color i : ℚ) :=
      mul_le_of_le_one_right (Nat.cast_nonneg _) hI1
    have hfl := Int.floor_mono hmul
    rw [Int.floor_natCast] at hfl
    exact Int.toNat_le.mpr hfl
  · with_unfolding_all decide
  · with_unfolding_all decide

/-- Witness for claim C7 at the concrete unit vectors (1, 0, 0) and
(0, 1, 0). -/
theorem C7_shaded_intensity_witness :
    0 ≤ lightIntensity ⟨(1 : ℚ), 0, 0⟩ ⟨0, 1, 0⟩ ∧
    lightIntensity ⟨(1 : ℚ), 0, 0⟩ ⟨0, 1, 0⟩ ≤ 1 :=
  (C7_shaded_intensity_in_unit_range ⟨1, 0, 0⟩ ⟨0, 1, 0⟩
    (by with_unfolding_all decide) (by with_unfolding_all decide)).1

/-- The trigonometric stand-ins of realFns satisfy the Pythagorean
identity. -/
theorem realFns_pythagorean (t : ℝ) :
    realFns.cos t * realFns.cos t + realFns.sin t * realFns.sin t = 1 := by
  simp only [realFns]
  rw [← Real.sin_sq_add_cos_sq t]
  ring

/-- The x stage of the rotation preserves dot products when its coefficients
satisfy the Pythagorean identity. -/
theorem dot_rotAxisX (c s : ℝ) (h : c * c + s * s = 1) (u v : Vec3 ℝ) :
    Vec3.dot (rotAxisX c s u) (rotAxisX c s v) = Vec3.dot u v := by
  simp only [rotAxisX, Vec3.dot]
  linear_combination (u.y * v.y + u.z * v.z) * h

/-- The y stage of the rotation preserves dot products. -/
theorem dot_rotAxisY (c s : ℝ) (h : c * c + s * s = 1) (u v : Vec3 ℝ) :
    Vec3.dot (rotAxisY c s u) (rotAxisY c s v) = Vec3.dot u v := by
  simp only [rotAxisY, Vec3.dot]
  linear_combination (u.x * v.x + u.z * v.z) * h

/-- The z stage of the rotation preserves dot products. -/
theorem dot_rotAxisZ (c s : ℝ) (h : c * c + s * s = 1) (u v : Vec3 ℝ) :
    Vec3.dot (rotAxisZ c s u) (rotAxisZ c s v) = Vec3.dot u v := by
  simp only [rotAxisZ, Vec3.dot]
  linear_combination (u.x * v.x + u.y * v.y) * h

/-- The full rotation with the real trigonometric functions preserves dot
products. -/
theorem dot_rotate (r u v : Vec3 ℝ) :
    Vec3.dot (Vec3.rotate realFns r u) (Vec3.rotate realFns r v) = Vec3.dot u v := by
  simp only [Vec3.rotate]
  rw [dot_rotAxisZ _ _ (realFns_pythagorean _),
      dot_rotAxisY _ _ (realFns_pythagorean _),
      dot_rotAxisX _ _ (realFns_pythagorean _)]

/-- The squared norm is the dot product with itself. -/
theorem normSq_eq_dot (v : Vec3 ℝ) : Vec3.normSq v = Vec3.dot v v := by
  simp [Vec3.normSq, Vec3.dot]

/-- The rotation preserves squared norms. -/
theorem normSq_rotate (r v : Vec3 ℝ) :
    Vec3.normSq (Vec3.rotate realFns r v) = Vec3.normSq v := by
  rw [normSq_eq_dot, dot_rotate, ← normSq_eq_dot]

/-- The rotation is linear, so it commutes with vector subtraction. -/
theorem rotate_sub (r u w : Vec3 ℝ) :
    Vec3.rotate realFns r (Vec3.sub u w) =
      Vec3.sub (Vec3.rotate realFns r u) (Vec3.rotate realFns r w) := by
  simp only [Vec3.rotate, rotAxisX, rotAxisY, rotAxisZ, Vec3.sub, Vec3.mk.injEq]
  refine ⟨by ring, by ring, by ring⟩

/-- The un-normalized triangle normal is the cross product of the two edge
vectors. -/
theorem crossVec_eq_cross (A B C : Vec3 ℝ) :
    crossVec A B C = cross (Vec3.sub B A) (Vec3.sub C A) :=
  rfl

/-- The Lagrange identity for the cross product in three dimensions. -/
theorem normSq_cross (u v : Vec3 ℝ) :
    Vec3.normSq (cross u v) =
      Vec3.normSq u * Vec3.normSq v - Vec3.dot u v * Vec3.dot u v := by
  simp only [cross, Vec3.normSq, Vec3.dot]
  ring

/-- Rotating both arguments of the cross product preserves its squared
norm. -/
theorem normSq_cross_rotate (r u v : Vec3 ℝ) :
    Vec3.normSq (cross (Vec3.rotate realFns r u) (Vec3.rotate realFns r v)) =
      Vec3.normSq (cross u v) := by
  rw [normSq_cross, normSq_cross, normSq_rotate, normSq_rotate, dot_rotate]

/-- Rotating the three corners preserves the squared norm of the
un-normalized triangle normal. -/
theorem normSq_crossVec_rotate (r A B C : Vec3 ℝ) :
    Vec3.normSq (crossVec (Vec3.rotate realFns r A) (Vec3.rotate realFns r B)
        (Vec3.rotate realFns r C)) =
      Vec3.normSq (crossVec A B C) := by
  rw [crossVec_eq_cross, crossVec_eq_cross, ← rotate_sub, ← rotate_sub,
      normSq_cross_rotate]

/-- Translating the three corners by the same vector leaves the un-normalized
triangle normal unchanged. -/
theorem crossVec_translate (p A B C : Vec3 ℝ) :
    crossVec (Vec3.add A p) (Vec3.add B p) (Vec3.add C p) = crossVec A B C := by
  simp only [crossVec, Vec3.add, Vec3.mk.injEq]
  refine ⟨by ring, by ring, by ring⟩

/-- A real vector has squared norm zero exactly when it is the zero
vector. -/
theorem normSq_eq_zero_iff (v : Vec3 ℝ) :
    Vec3.normSq v = 0 ↔ v = ⟨0, 0, 0⟩ := by
  constructor
  · intro h
    simp only [Vec3.normSq] at h
    have hx : v.x * v.x ≤ 0 := by nlinarith [mul_self_nonneg v.y, mul_self_nonneg v.z]
    have hy : v.y * v.y ≤ 0 := by nlinarith [mul_self_nonneg v.x, mul_self_nonneg v.z]
    have hz : v.z * v.z ≤ 0 := by nlinarith [mul_self_nonneg v.x, mul_self_nonneg v.y]
    have hx0 := mul_self_eq_zero.mp (le_antisymm hx (mul_self_nonneg v.x))
    have hy0 := mul_self_eq_zero.mp (le_antisymm hy (mul_self_nonneg v.y))
    have hz0 := mul_self_eq_zero.mp (le_antisymm hz (mul_self_nonneg v.z))
    cases v
    simp_all
  · intro h
    subst h
    simp [Vec3.normSq]

/-- Normalizing a nonzero real vector yields a vector of squared norm one. -/
theorem normSq_normalize (v : Vec3 ℝ) (hv : v ≠ ⟨0, 0, 0⟩) :
    Vec3.normSq (Vec3.normalize realFns v) = 1 := by
  have hSnn : 0 ≤ v.x * v.x + v.y * v.y + v.z * v.z :=
    add_nonneg (add_nonneg (mul_self_nonneg v.x) (mul_self_nonneg v.y))
      (mul_self_nonneg v.z)
  have hSne : v.x * v.x + v.y * v.y + v.z * v.z ≠ 0 := by
    intro h0
    exact hv ((normSq_eq_zero_iff v).mp (by simpa [Vec3.normSq] using h0))
  have hL : Real.sqrt (v.x * v.x + v.y * v.y + v.z * v.z) *
      Real.sqrt (v.x * v.x + v.y * v.y + v.z * v.z) =
      v.x * v.x + v.y * v.y + v.z * v.z := Real.mul_self_sqrt hSnn
  simp only [Vec3.normalize, Vec3.normSq, realFns]
  have hrw : ∀ L : ℝ, v.x / L * (v.x / L) + v.y / L * (v.y / L) + v.z / L * (v.z / L) =
      (v.x * v.x + v.y * v.y + v.z * v.z) / (L * L) := fun L => by ring
  rw [hrw, hL, div_self hSne]

/-- A rotate call keeps a triangle non-degenerate and leaves it with a unit
normal; a setLocation call does the same. -/
theorem triangle_step_invariant (op : TriOp ℝ) (t : Triangle ℝ)
    (h1 : crossVec t.A t.B t.C ≠ ⟨0, 0, 0⟩) :
    crossVec (applyTriOp realFns op t).A (applyTriOp realFns op t).B
        (applyTriOp realFns op t).C ≠ ⟨0, 0, 0⟩ ∧
      (Vec3.normSq t.normal = 1 →
        Vec3.normSq (applyTriOp realFns op t).normal = 1) := by
  rcases op with r | p
  · have hpres := normSq_crossVec_rotate r t.A t.B t.C
    have hne : crossVec (Vec3.rotate realFns r t.A) (Vec3.rotate realFns r t.B)
        (Vec3.rotate realFns r t.C) ≠ ⟨0, 0, 0⟩ := by
      intro h0
      apply h1
      rw [← normSq_eq_zero_iff, ← hpres, h0]
      simp [Vec3.normSq]
    constructor
    · simpa [applyTriOp, Triangle.rotate, Triangle.recalculateCenter,
        Triangle.recalculateNormals] using hne
    · intro _
      simpa [applyTriOp, Triangle.rotate, Triangle.recalculateCenter,
        Triangle.recalculateNormals] using normSq_normalize _ hne
  · constructor
    · simpa [applyTriOp, Triangle.setLocation, Triangle.recalculateCenter,
        crossVec_translate] using h1
    · intro h2
      simpa [applyTriOp, Triangle.setLocation, Triangle.recalculateCenter]
        using h2

/-- Along any sequence of rotate and setLocation calls, a non-degenerate
triangle stays non-degenerate and keeps a unit normal. -/
theorem triangle_ops_invariant (ops : List (TriOp ℝ)) (t : Triangle ℝ)
    (h1 : crossVec t.A t.B t.C ≠ ⟨0, 0, 0⟩) (h2 : Vec3.normSq t.normal = 1) :
    crossVec (applyTriOps realFns ops t).A (applyTriOps realFns ops t).B
        (applyTriOps realFns ops t).C ≠ ⟨0, 0, 0⟩ ∧
      Vec3.normSq (applyTriOps realFns ops t).normal = 1 := by
  induction ops generalizing t with
  | nil => exact ⟨h1, h2⟩
  | cons op rest ih =>
    have hstep := triangle_step_invariant op t h1
    have hops : applyTriOps realFns (op :: rest) t =
        applyTriOps realFns rest (applyTriOp realFns op t) := rfl
    rw [hops]
    exact ih (applyTriOp realFns op t) hstep.1 (hstep.2 h2)

/-- Claim C9: a triangle constructed from non-degenerate corners has a unit
normal after any sequence of rotate and setLocation calls, and setLocation
translates the corners and recomputes the center only, leaving the normal
unchanged. -/
theorem C9_unit_normal_invariant (A B C : Vec3 ℝ) (ops : List (TriOp ℝ))
    (h : crossVec A B C ≠ ⟨0, 0, 0⟩) :
    Vec3.normSq ((applyTriOps realFns ops (Triangle.make realFns A B C)).normal) = 1 ∧
    (∀ (t : Triangle ℝ) (p : Vec3 ℝ),
      (Triangle.setLocation p t).normal = t.normal ∧
      (Triangle.setLocation p t).A = Vec3.add t.A p ∧
      (Triangle.setLocation p t).B = Vec3.add t.B p ∧
      (Triangle.setLocation p t).C = Vec3.add t.C p ∧
      (Triangle.setLocation p t).center =
        centroid (Vec3.add t.A p) (Vec3.add t.B p) (Vec3.add t.C p)) := by
  constructor
  · have hmk : crossVec (Triangle.make realFns A B C).A (Triangle.make realFns A B C).B
        (Triangle.make realFns A B C).C ≠ ⟨0, 0, 0⟩ := h
    have hn : Vec3.normSq (Triangle.make realFns A B C).normal = 1 := by
      simpa [Triangle.make, Triangle.recalculateCenter, Triangle.recalculateNormals]
        using normSq_normalize _ h
    exact (triangle_ops_invariant ops (Triangle.make realFns A B C) hmk hn).2
  · intro t p
    exact ⟨rfl, rfl, rfl, rfl, rfl⟩

/-- Witness for claim C9 on a concrete non-degenerate triangle and a
one-element operation sequence. -/
theorem C9_unit_normal_invariant_witness :
    Vec3.normSq ((applyTriOps realFns [TriOp.moveBy ⟨1, 1, 1⟩]
        (Triangle.make realFns ⟨0, 0, 0⟩ ⟨1, 0, 0⟩ ⟨0, 1, 0⟩)).normal) = 1 :=
  (C9_unit_normal_invariant ⟨0, 0, 0⟩ ⟨1, 0, 0⟩ ⟨0, 1, 0⟩ [TriOp.moveBy ⟨1, 1, 1⟩]
    (by simp [crossVec, Vec3.mk.injEq])).1

/-- The comparator passed to the sort in Mesh.project is not a consistent
comparison function in the sense of the ECMAScript specification: on two
triangles with equal center z it returns -1 in both argument orders and never
returns 0, so the host sort order of such ties is implementation-defined. -/
theorem sortCompare_inconsistent_on_ties (a b : Triangle ℚ)
    (h : a.center.z = b.center.z) :
    sortCompare a b = -1 ∧ sortCompare b a = -1 ∧ sortCompare a a ≠ 0 := by
  refine ⟨?_, ?_, ?_⟩ <;> simp [sortCompare, h]

end Engine3D
